import Mathlib

/-!
Verification of the megatron-controls script-execution engine.

This file gives a shallow embedding, in Lean 4, of the core of the
`megatron_controls` Python package: the line tokenizer, the loop resolver,
the script execution engine (`MegatronInterpreter.execute_script`,
`execute_block`, `handle_loop`, `handle_timer`), and the session-level
command handlers relevant to fail-condition monitoring and waits
(`failif`, `failifoff`, the `failif` change-callback, `waitai`).

Modelling conventions:
* Python strings are Lean `String`s; script files are `List String`
  (one entry per line, as produced by `readlines`, newline not included —
  every consumer strips the line before use, so this is observationally
  equivalent).
* Python floats are modelled as exact rationals `ℚ`; every comparison in
  the embedded code has a margin that makes the float/rational distinction
  irrelevant for the properties proved here.
* The engine is a generator; we model one run of the generator as a pure
  function from a fuel bound, a script store, an asynchronous-trigger
  schedule, and an engine context, to a final context together with the
  ordered trace of observable events (yields, prints, flag reads).
  Fuel is needed because recovery-script recursion is unbounded in Python.
* The `failif` change-callback runs on a notification thread and can fire
  at an arbitrary point; it is modelled by a schedule `Sched` consulted
  once per engine loop iteration (the callback's only effect is to set the
  shared flag and record the recovery path, which is what the schedule does).
-/

/-- Characters treated as whitespace by Python `str.strip` / `str.split`. -/
def isPySpace (c : Char) : Bool :=
  c = ' ' ∨ c = '\t' ∨ c = '\n' ∨ c = '\r' ∨ c = '\x0b' ∨ c = '\x0c'

/-- Python `str.strip()`: remove leading and trailing whitespace. -/
def pyStrip (s : String) : String :=
  String.mk (((s.toList.dropWhile isPySpace).reverse.dropWhile isPySpace).reverse)

/-- Python `str.lower()` (ASCII range, which is all the interpreter compares). -/
def pyLower (s : String) : String :=
  String.mk (s.toList.map Char.toLower)

/-- Character-list core of Python `str.startswith`. -/
def charsStart : List Char → List Char → Bool
  | _, [] => true
  | [], _ :: _ => false
  | c :: cs, p :: ps => if c = p then charsStart cs ps else false

/-- Python `s.startswith(pre)`. -/
def strStarts (s pre : String) : Bool :=
  charsStart s.toList pre.toList

/-- Python `s.endswith(suf)`. -/
def strEnds (s suf : String) : Bool :=
  charsStart s.toList.reverse suf.toList.reverse

/-- ASCII digit test (`\d` in the interpreter's regexes). -/
def isDigitChar (c : Char) : Bool :=
  '0' ≤ c ∧ c ≤ '9'

/-- Numeric value of a digit string (Python `int` of a digit run). -/
def natOfDigits (ds : List Char) : Nat :=
  ds.foldl (fun n c => 10 * n + (c.toNat - '0'.toNat)) 0

/-- Parsing layer of Python `float(s)` on the forms the scripts use:
optional sign, decimal digits with an optional fractional part (exponent
notation and the special forms inf and nan do not occur in scripts and are
not modelled). Returns `none` where Python raises `ValueError`, and
otherwise `(negative, integer part, fraction digits value, fraction digit
count)`. -/
def pyFloatParts (s : String) : Option (Bool × Nat × Nat × Nat) :=
  let cs := (pyStrip s).toList
  let signAndRest : Bool × List Char :=
    match cs with
    | '-' :: r => (true, r)
    | '+' :: r => (false, r)
    | _ => (false, cs)
  let neg := signAndRest.1
  let cs1 := signAndRest.2
  let ip := cs1.takeWhile isDigitChar
  let rest := cs1.drop ip.length
  match rest with
  | [] => if ip.isEmpty then none else some (neg, natOfDigits ip, 0, 0)
  | '.' :: fr =>
    let fp := fr.takeWhile isDigitChar
    if fp.length ≠ fr.length then none
    else if ip.isEmpty ∧ fp.isEmpty then none
    else some (neg, natOfDigits ip, natOfDigits fp, fp.length)
  | _ => none

/-- Python `float(s)`: the parsed parts as an exact rational. -/
def pyFloat (s : String) : Option ℚ :=
  (pyFloatParts s).map (fun p =>
    (if p.1 then (-1 : ℚ) else 1) * ((p.2.1 : ℚ) + (p.2.2.1 : ℚ) / (10 : ℚ) ^ p.2.2.2))

/-- Python `int(s)` on the forms the scripts use: optional sign and digits. -/
def pyInt (s : String) : Option Int :=
  let cs := (pyStrip s).toList
  let signAndRest : Int × List Char :=
    match cs with
    | '-' :: r => (-1, r)
    | '+' :: r => (1, r)
    | _ => (1, cs)
  let ds := signAndRest.2
  if ds.isEmpty ∨ ¬ ds.all isDigitChar then none
  else some (signAndRest.1 * natOfDigits ds)

/-- `os.path.join(dir, name)` for the cases arising here: an empty left
component disappears, an absolute right component wins, otherwise the two
are joined with a single separator. -/
def pyJoin (dir name : String) : String :=
  if dir = "" then name
  else if strStarts name "/" then name
  else if strEnds dir "/" then dir ++ name
  else dir ++ "/" ++ name

/-- Helper for `tokenize_command`: split a character list at the first
double quote, returning the content before it and the remainder after it
(`none` when no closing quote exists). -/
def splitAtQuote : List Char → Option (List Char × List Char)
  | [] => none
  | c :: cs =>
    if c = '"' then some ([], cs)
    else
      match splitAtQuote cs with
      | some (a, b) => some (c :: a, b)
      | none => none

/-- A character that can extend a bare (unquoted) token:
`[^\s,]` in the tokenizer's regex. -/
def isBareTokenChar (c : Char) : Bool :=
  ¬ isPySpace c ∧ c ≠ ','

/-- Scanning core of `MegatronInterpreter.tokenize_command`
(`interpreter.py` lines 144-147): repeated leftmost matching of the regex
of a double-quoted run with nonempty content, or else a maximal run of
non-whitespace, non-comma characters, exactly as `re.findall` does;
characters matching neither alternative (whitespace and commas) are
skipped. The `fuel` argument only makes the recursion structural; every
recursive call strictly shrinks the character list, so a fuel equal to the
initial length (as supplied by `tokenize_command`) is never exhausted. -/
def tokenizeAux : Nat → List Char → List (List Char)
  | 0, _ => []
  | _, [] => []
  | fuel + 1, c :: rest =>
    if isPySpace c ∨ c = ',' then tokenizeAux fuel rest
    else if c = '"' then
      match splitAtQuote rest with
      | some (content, rest2) =>
        if content.isEmpty then
          (c :: rest.takeWhile isBareTokenChar) ::
            tokenizeAux fuel (rest.drop (rest.takeWhile isBareTokenChar).length)
        else content :: tokenizeAux fuel rest2
      | none =>
        (c :: rest.takeWhile isBareTokenChar) ::
          tokenizeAux fuel (rest.drop (rest.takeWhile isBareTokenChar).length)
    else
      (c :: rest.takeWhile isBareTokenChar) ::
        tokenizeAux fuel (rest.drop (rest.takeWhile isBareTokenChar).length)

/-- `MegatronInterpreter.tokenize_command`: tokenize one script line. -/
def tokenize_command (line : String) : List String :=
  (tokenizeAux line.toList.length line.toList).map String.mk

/-- Prefix match of the timer regex (`re.match` with pattern `t` then one
or more characters from the class of digits and dots, case-insensitive,
`interpreter.py` line 106/180): returns the captured group, the maximal
run of digits and dots directly after the leading `t`. -/
def match_t (line : String) : Option String :=
  match line.toList with
  | c :: rest =>
    if c = 't' ∨ c = 'T' then
      let ds := rest.takeWhile (fun d => isDigitChar d ∨ d = '.')
      if ds.isEmpty then none else some (String.mk ds)
    else none
  | [] => none

/-- Prefix match of the loop-open regex (`re.match` with pattern `l` then
one or more digits, case-insensitive, `interpreter.py` line 107/181):
returns the iteration count, `int` of the maximal digit run directly
after the leading `l`. -/
def match_l (line : String) : Option Nat :=
  match line.toList with
  | c :: rest =>
    if c = 'l' ∨ c = 'L' then
      let ds := rest.takeWhile isDigitChar
      if ds.isEmpty then none else some (natOfDigits ds)
    else none
  | [] => none

/-- Scanning loop of `MegatronInterpreter.find_end_of_loop`
(`interpreter.py` lines 158-169): from index `i`, strip and lowercase each
line; a line starting with the letter `l` increments the depth; a line
equal to `n` returns the index at depth 0 and decrements otherwise; `-1`
when the scan exhausts the lines. -/
def findEndAux (lines : List String) : Nat → Nat → Nat → Int
  | _, _, 0 => -1
  | loop_depth, i, rem + 1 =>
    match lines[i]? with
    | none => -1
    | some raw =>
      let line := pyLower (pyStrip raw)
      if strStarts line "l" then findEndAux lines (loop_depth + 1) (i + 1) rem
      else if line = "n" then
        if loop_depth = 0 then (i : Int)
        else findEndAux lines (loop_depth - 1) (i + 1) rem
      else findEndAux lines loop_depth (i + 1) rem
termination_by structural _ _ rem => rem

/-- `MegatronInterpreter.find_end_of_loop`: find the loop-close index for
the loop-open line at `start_index`, or `-1` if there is none. The
structural recursion counter `lines.length - (start_index + 1)` equals the
number of indices the `for` loop ranges over, so it runs out exactly when
the scan exhausts the lines. -/
def find_end_of_loop (lines : List String) (start_index : Nat) : Int :=
  findEndAux lines 0 (start_index + 1) (lines.length - (start_index + 1))

/-- Structural scanner used to state the claim's (and the amended claim's)
description of the loop resolver: scan a list of lines with a depth
counter, where `isLoopOpen` decides which lines increment the depth; a
close line (stripped, lowercased text exactly `n`) returns its offset at
depth 0 and decrements the depth otherwise. -/
def findEndScan (isLoopOpen : String → Bool) : List String → Nat → Option Nat
  | [], _ => none
  | l :: rest, depth =>
    if isLoopOpen l then (findEndScan isLoopOpen rest (depth + 1)).map (· + 1)
    else if pyLower (pyStrip l) = "n" then
      if depth = 0 then some 0
      else (findEndScan isLoopOpen rest (depth - 1)).map (· + 1)
    else (findEndScan isLoopOpen rest depth).map (· + 1)

/-- The claim's loop-open predicate: a line matching the loop-open pattern
`l` followed by digits. -/
def isLoopOpenClaim (line : String) : Bool :=
  (match_l (pyStrip line)).isSome

/-- The source's loop-open predicate: any line whose stripped, lowercased
text starts with the letter `l` (`interpreter.py` line 162). -/
def isLoopOpenCode (line : String) : Bool :=
  strStarts (pyLower (pyStrip line)) "l"

/-- Loop resolution as described by the words of claim C3: scan forward
from the loop-open line, counting depth over lines matching the loop-open
pattern `l<digits>` only, and return the index of the first close line
seen at depth 0, or "not found" (-1). -/
def findEndOfLoopClaim (lines : List String) (start_index : Nat) : Int :=
  match findEndScan isLoopOpenClaim (lines.drop (start_index + 1)) 0 with
  | some k => ((start_index + 1 + k : Nat) : Int)
  | none => -1

/-- Loop resolution as described by the amended claim: identical scan, but
the depth counter is incremented by every line whose stripped, lowercased
text starts with the letter `l`, not only by lines matching `l<digits>`. -/
def findEndOfLoopAmended (lines : List String) (start_index : Nat) : Int :=
  match findEndScan isLoopOpenCode (lines.drop (start_index + 1)) 0 with
  | some k => ((start_index + 1 + k : Nat) : Int)
  | none => -1

/-- The session/script command names (`MegatronInterpreter.megatron_commands`,
`interpreter.py` lines 17-36). -/
def megatron_commands : List String :=
  ["email", "exit", "failif", "failifoff", "l", "log", "lograte", "plot",
   "print", "run", "set", "setao", "setdo", "stop", "t", "var", "waitai", "waitdi"]

/-- The device-motion command names (`MegatronInterpreter.motor_commands`,
`interpreter.py` lines 37-79). -/
def motor_commands : List String :=
  ["ac", "af", "ba", "bg", "bi", "bl", "bm", "bt", "bz", "cc", "ce", "cn",
   "dc", "dp", "er", "fa", "fe", "fl", "fv", "hm", "hv", "ib", "iht", "il",
   "kd", "ki", "kp", "ld", "mo", "mt", "op", "pa", "pr", "pv", "sc", "sh",
   "sp", "st", "ta", "tp", "xq"]

/-- Python exceptions that can arise in the embedded fragment of the
engine. `cmdNotFound` and `loopError` are the package's own
`CommandNotFoundError` and `LoopSyntaxError` (their class definitions live
in `exceptions.py`, which only declares them); `stopScript` is
`StopScript`; `outOfFuel` is an artifact of the fuel-bounded model and
never occurs in any run considered by the theorems below. -/
inductive PyExc where
  | valueError (msg : String)
  | typeError (msg : String)
  | indexError
  | attributeError
  | runtimeError (msg : String)
  | cmdNotFound (cmd : String)
  | loopError
  | stopScript
  | systemExit
  | outOfFuel
deriving DecidableEq, Repr

/-- Observable events of one engine run, in order:
`null` and `sleep` are the yielded scheduler steps (`bps.null`,
`bps.sleep`); `print` is a message on the session's output channel;
`report` is the engine printing a caught exception (`print(e)`,
`interpreter.py` line 132); `effect` is the invocation of a command
handler whose body performs device/file/network I/O and is not embedded;
`checkFail` is the engine reading `context.fail_condition_triggered`, with
the value it saw; `lineStart` (instrumentation) marks the engine beginning
to process one script line, with a flag telling whether the line is inside
a loop block (`execute_block`) rather than at the top level of a script;
`enterScript` (instrumentation) marks entry into `execute_script`. -/
inductive Ev where
  | null
  | sleep (duration : String)
  | print (msg : String)
  | report (e : PyExc)
  | effect (cmd : String) (args : List String)
  | checkFail (value : Bool)
  | lineStart (inBlock : Bool) (text : String)
  | enterScript (path : String)
deriving DecidableEq, Repr

/-- The fields of the `SharedContext` namespace (`context.py`) that the
engine's control flow reads or writes, with their source names. -/
structure EngCtx where
  script_dir : String
  fail_condition_triggered : Bool
  fail_script_path : String
  /-- Instrumentation: counts engine loop iterations, to index the
  asynchronous-trigger schedule. -/
  stepCount : Nat
deriving DecidableEq, Repr

/-- The script store: maps a script path to its lines
(`open(script_path).readlines()`; scripts are re-read on every
invocation, which a pure map models exactly). -/
abbrev Scripts := String → List String

/-- An asynchronous-trigger schedule: `sched k = some path` means the
`failif` change-callback fires during the engine's `k`-th loop iteration
and records recovery path `path`. This models the notification thread of
spec section 5: the callback's only action visible to the engine is
setting the shared flag and the recovery path, and, like the callback
(`megatron_control.py` line 185), it does nothing while a trigger is
already pending. -/
abbrev Sched := Nat → Option String

/-- Apply the asynchronous-trigger schedule for the current engine loop
iteration, then advance the iteration counter. -/
def applySched (sched : Sched) (ctx : EngCtx) : EngCtx :=
  let ctx2 :=
    match sched ctx.stepCount with
    | some path =>
      if ctx.fail_condition_triggered then ctx
      else { ctx with fail_condition_triggered := true, fail_script_path := path }
    | none => ctx
  { ctx2 with stepCount := ctx2.stepCount + 1 }

/-- Result of running (a part of) the engine: final context, ordered event
trace, and the exception that escaped, if any (`none` = the generator
finished normally). -/
structure EngOut where
  ctx : EngCtx
  evs : List Ev
  exc : Option PyExc
deriving DecidableEq, Repr

/-- Prefix events onto a result. -/
def EngOut.prepend (es : List Ev) (r : EngOut) : EngOut :=
  ⟨r.ctx, es ++ r.evs, r.exc⟩

mutual

/-- `MegatronInterpreter.execute_script` (`interpreter.py` lines 89-142):
read the script at `path` and run its top-level line loop. -/
def runScript (fuel : Nat) (scripts : Scripts) (sched : Sched) (path : String)
    (ctx : EngCtx) : EngOut :=
  match fuel with
  | 0 => ⟨ctx, [], some .outOfFuel⟩
  | fuel + 1 =>
    EngOut.prepend [.enterScript path] (scriptLoop fuel scripts sched (scripts path) ctx 0)
termination_by structural fuel

/-- The `while i < len(script_lines)` loop of `execute_script.plan`
(`interpreter.py` lines 94-140). Comment lines advance the cursor with no
yield; blank lines yield one `null` step; both `continue` without reaching
the fail-flag check at the bottom of the loop body. Timer, loop and
command lines run inside the `try`: `StopScript` breaks out of the loop,
`CommandNotFoundError` and `LoopSyntaxError` are reported and followed by
a `null` step, any other exception propagates. Lines that complete the
loop body reach the fail-flag check (`afterStep`). -/
def scriptLoop (fuel : Nat) (scripts : Scripts) (sched : Sched) (lines : List String)
    (ctx : EngCtx) (i : Nat) : EngOut :=
  match fuel with
  | 0 => ⟨ctx, [], some .outOfFuel⟩
  | fuel + 1 =>
    if h : i < lines.length then
      let line := pyStrip (lines.get ⟨i, h⟩)
      if strStarts line "#" then
        EngOut.prepend [.lineStart false line]
          (scriptLoop fuel scripts sched lines (applySched sched ctx) (i + 1))
      else if line = "" then
        EngOut.prepend [.lineStart false line, .null]
          (scriptLoop fuel scripts sched lines (applySched sched ctx) (i + 1))
      else
        let step : EngOut × Nat :=
          match match_t line with
          | some tv =>
            let rt := dispatchMegatron fuel scripts sched "t" [tv] ctx
            (⟨rt.ctx, .print ("Processing timer for " ++ tv ++ " seconds") :: rt.evs, rt.exc⟩, i)
          | none =>
            match match_l line with
            | some loop_count =>
              let loop_end := find_end_of_loop lines i
              if loop_end = -1 then (⟨ctx, [], some .loopError⟩, i)
              else
                (handle_loop fuel scripts sched loop_count 0
                  ((lines.drop (i + 1)).take (loop_end.toNat - (i + 1))) ctx, loop_end.toNat)
            | none =>
              match tokenize_command line with
              | [] => (⟨ctx, [], some (.valueError "not enough values to unpack")⟩, i)
              | command :: args =>
                if megatron_commands.contains command then
                  (dispatchMegatron fuel scripts sched command args ctx, i)
                else if motor_commands.contains command then
                  (⟨ctx, [.effect command args], none⟩, i)
                else
                  (⟨ctx, [], some (.cmdNotFound command)⟩, i)
        let r := step.1
        match r.exc with
        | none =>
          EngOut.prepend (.lineStart false line :: r.evs)
            (afterStep fuel scripts sched lines (applySched sched r.ctx) (step.2 + 1))
        | some .stopScript => ⟨r.ctx, .lineStart false line :: r.evs, none⟩
        | some (.cmdNotFound c) =>
          EngOut.prepend (.lineStart false line :: (r.evs ++ [.report (.cmdNotFound c), .null]))
            (afterStep fuel scripts sched lines (applySched sched r.ctx) (i + 1))
        | some .loopError =>
          EngOut.prepend (.lineStart false line :: (r.evs ++ [.report .loopError, .null]))
            (afterStep fuel scripts sched lines (applySched sched r.ctx) (i + 1))
        | some e => ⟨r.ctx, .lineStart false line :: r.evs, some e⟩
    else ⟨ctx, [], none⟩
termination_by structural fuel

/-- Lines 134-140 of `interpreter.py`: after a completed loop-body
iteration, read the shared fail flag. If set: clear it, run the recovery
script as a fresh invocation, and return (the remaining lines of this
script are not resumed). Otherwise continue the line loop at `i1`. -/
def afterStep (fuel : Nat) (scripts : Scripts) (sched : Sched) (lines : List String)
    (ctx : EngCtx) (i1 : Nat) : EngOut :=
  match fuel with
  | 0 => ⟨ctx, [], some .outOfFuel⟩
  | fuel + 1 =>
    if ctx.fail_condition_triggered then
      let ctx2 := { ctx with fail_condition_triggered := false }
      EngOut.prepend [.checkFail true] (runScript fuel scripts sched ctx2.fail_script_path ctx2)
    else
      EngOut.prepend [.checkFail false] (scriptLoop fuel scripts sched lines ctx i1)
termination_by structural fuel

/-- `MegatronInterpreter.handle_loop` (`interpreter.py` lines 153-156):
run the block once per iteration, printing the iteration banner first.
`k` counts the completed iterations. An exception from the block abandons
the remaining iterations and propagates; note that a normal return of
`execute_block` — including the return taken after a fail-diversion — lets
the `for` loop proceed with the next iteration. -/
def handle_loop (fuel : Nat) (scripts : Scripts) (sched : Sched) (loop_count k : Nat)
    (block : List String) (ctx : EngCtx) : EngOut :=
  match fuel with
  | 0 => ⟨ctx, [], some .outOfFuel⟩
  | fuel + 1 =>
    if k < loop_count then
      let banner : Ev :=
        .print ("Executing loop iteration " ++ toString (k + 1) ++ " of " ++ toString loop_count)
      let r := runBlock fuel scripts sched block ctx 0
      match r.exc with
      | none =>
        let r2 := handle_loop fuel scripts sched loop_count (k + 1) block r.ctx
        ⟨r2.ctx, (banner :: r.evs) ++ r2.evs, r2.exc⟩
      | some e => ⟨r.ctx, banner :: r.evs, some e⟩
    else ⟨ctx, [], none⟩
termination_by structural fuel

/-- `MegatronInterpreter.execute_block` (`interpreter.py` lines 171-214).
Differences from the top-level loop, as in the source: there is no
comment branch and no `try` (exceptions propagate to the top-level
handler); blank, timer and loop lines `continue` without reaching the
fail-flag check; an unknown command is silently skipped (the dispatch has
no `else`); only command lines reach the fail-flag check
(`blockAfterStep`). -/
def runBlock (fuel : Nat) (scripts : Scripts) (sched : Sched) (block : List String)
    (ctx : EngCtx) (i : Nat) : EngOut :=
  match fuel with
  | 0 => ⟨ctx, [], some .outOfFuel⟩
  | fuel + 1 =>
    if h : i < block.length then
      let line := pyStrip (block.get ⟨i, h⟩)
      if line = "" then
        EngOut.prepend [.lineStart true line, .null]
          (runBlock fuel scripts sched block (applySched sched ctx) (i + 1))
      else
        match match_t line with
        | some tv =>
          let rt := dispatchMegatron fuel scripts sched "t" [tv] ctx
          let evs := Ev.lineStart true line ::
            .print ("Processing timer for " ++ tv ++ " seconds") :: rt.evs
          match rt.exc with
          | none =>
            EngOut.prepend evs (runBlock fuel scripts sched block (applySched sched rt.ctx) (i + 1))
          | some e => ⟨rt.ctx, evs, some e⟩
        | none =>
          match match_l line with
          | some loop_count =>
            let loop_end := find_end_of_loop block i
            if loop_end = -1 then ⟨ctx, [.lineStart true line], some .loopError⟩
            else
              let r := handle_loop fuel scripts sched loop_count 0
                ((block.drop (i + 1)).take (loop_end.toNat - (i + 1))) ctx
              match r.exc with
              | none =>
                EngOut.prepend (.lineStart true line :: r.evs)
                  (runBlock fuel scripts sched block (applySched sched r.ctx) (loop_end.toNat + 1))
              | some e => ⟨r.ctx, .lineStart true line :: r.evs, some e⟩
          | none =>
            match tokenize_command line with
            | [] => ⟨ctx, [.lineStart true line], some (.valueError "not enough values to unpack")⟩
            | command :: args =>
              let r : EngOut :=
                if megatron_commands.contains command then
                  dispatchMegatron fuel scripts sched command args ctx
                else if motor_commands.contains command then
                  ⟨ctx, [.effect command args], none⟩
                else
                  ⟨ctx, [], none⟩
              match r.exc with
              | none =>
                EngOut.prepend (.lineStart true line :: r.evs)
                  (blockAfterStep fuel scripts sched block (applySched sched r.ctx) (i + 1))
              | some e => ⟨r.ctx, .lineStart true line :: r.evs, some e⟩
    else ⟨ctx, [], none⟩
termination_by structural fuel

/-- Lines 208-214 of `interpreter.py`: the fail-flag check at the bottom
of `execute_block`'s command-line path. If the flag is set: clear it, run
the recovery script, and return from this block (only this block — the
caller `handle_loop` resumes). Otherwise continue the block at `i1`. -/
def blockAfterStep (fuel : Nat) (scripts : Scripts) (sched : Sched) (block : List String)
    (ctx : EngCtx) (i1 : Nat) : EngOut :=
  match fuel with
  | 0 => ⟨ctx, [], some .outOfFuel⟩
  | fuel + 1 =>
    if ctx.fail_condition_triggered then
      let ctx2 := { ctx with fail_condition_triggered := false }
      EngOut.prepend [.checkFail true] (runScript fuel scripts sched ctx2.fail_script_path ctx2)
    else
      EngOut.prepend [.checkFail false] (runBlock fuel scripts sched block ctx i1)
termination_by structural fuel

/-- `process_megatron_command` (`megatron_control.py` lines 28-61),
restricted to the handlers whose bodies are free of device/file/network
I/O, which are embedded faithfully; the I/O-bound handlers (`email`,
`failif`, `failifoff`, `lograte`, `log`, `plot`, `set`, `setao`, `setdo`,
`waitai`, `waitdi`) appear as a single `effect` event and do not change
the engine-visible context (`failif` and `waitai` are embedded separately
below for the claims about them). The `l` entry maps to `l_command`,
whose `block` parameter is not among the dispatcher's keyword arguments,
so invoking it raises a `TypeError`. -/
def dispatchMegatron (fuel : Nat) (scripts : Scripts) (sched : Sched) (cmd : String)
    (args : List String) (ctx : EngCtx) : EngOut :=
  match fuel with
  | 0 => ⟨ctx, [], some .outOfFuel⟩
  | fuel + 1 =>
    match cmd with
    | "print" =>
      ⟨ctx, [.print ("Executing print command with text: " ++ String.intercalate " " args),
        .null], none⟩
    | "t" =>
      match args with
      | [] => ⟨ctx, [], some .indexError⟩
      | v :: _ =>
        match pyFloat v with
        | some _ => ⟨ctx, [.print ("Executing timer for " ++ v ++ " seconds"), .sleep v], none⟩
        | none => ⟨ctx, [], some (.valueError "could not convert string to float")⟩
    | "var" =>
      match args with
      | a :: b :: _ => ⟨ctx, [.print ("Setting variable " ++ a ++ " to " ++ b), .null], none⟩
      | _ => ⟨ctx, [], some .indexError⟩
    | "stop" => ⟨ctx, [.print "Stopping the current script."], some .stopScript⟩
    | "exit" => ⟨ctx, [.print "Exiting the interpreter."], some .systemExit⟩
    | "run" =>
      match args with
      | name :: _ =>
        let path := pyJoin ctx.script_dir name
        EngOut.prepend [.print ("Running script: " ++ name ++ " (" ++ path ++ ")")]
          (runScript fuel scripts sched path ctx)
      | [] => ⟨ctx, [], some .indexError⟩
    | "l" => ⟨ctx, [], some (.typeError "l_command missing required argument")⟩
    | c => ⟨ctx, [.effect c args], none⟩
termination_by structural fuel

end

/-- One component of a Python tuple stored in the module-level registry
`active_failif_conditions` (`megatron_control.py` line 20): a live signal
object (identified by the `context.devices` attribute it was looked up
under), a subscription token, or a number. -/
inductive PyField where
  | signal (deviceName : String)
  | subId (cid : Nat)
  | num (q : ℚ)
deriving DecidableEq, Repr

/-- The state read and written by the `megatron_control.py` command
handlers embedded below: the relevant `SharedContext` fields (with their
source names), the module-level registry `active_failif_conditions`
(values are the stored Python tuples), and, to make subscriptions
observable, the set of live subscriptions on the device signals together
with a fresh-token counter. `deviceSignals` maps an attribute name of
`context.devices` to the current value of the live signal held there
(`getattr` + `.get()`). -/
structure MCtx where
  device_mapping : List (String × String)
  deviceSignals : List (String × ℚ)
  script_dir : String
  fail_condition_triggered : Bool
  fail_script_path : String
  active_failif_conditions : List (String × List PyField)
  subscriptions : List (String × Nat)
  nextCid : Nat
deriving DecidableEq, Repr

/-- Result of one embedded `megatron_control` handler invocation. -/
structure MOut where
  ctx : MCtx
  evs : List Ev
  exc : Option PyExc
deriving DecidableEq, Repr

/-- `failif` (`megatron_control.py` lines 152-209). All validation
failures print an error, yield one `null` step and leave the state
unchanged. On the success path the handler prints the arming banner,
unconditionally resets `context.fail_condition_triggered` to `False`
(line 179), reads the signal's current value as the callback's baseline,
subscribes the change-callback (a fresh token), and stores the 3-tuple
`(pv_signal, cid, target_value)` in `active_failif_conditions` (a dict
assignment, so an existing entry for the same name is overwritten and its
subscription is left live). -/
def failif (args : List String) (ctx : MCtx) : MOut :=
  match args with
  | [pv_name, target_str, script_name] =>
    match pyFloat target_str with
    | none =>
      ⟨ctx, [.print ("Error: Invalid target value " ++ target_str ++
        " for failif. Must be a numeric value."), .null], none⟩
    | some target_value =>
      match ctx.device_mapping.lookup pv_name with
      | none => ⟨ctx, [.print ("Error: PV " ++ pv_name ++ " not found in device mapping."),
          .null], none⟩
      | some device_name =>
        match ctx.deviceSignals.lookup device_name with
        | none => ⟨ctx, [.print ("Error: Device signal for PV " ++ pv_name ++ " not found."),
            .null], none⟩
        | some _initial_val =>
          let banner := Ev.print ("Failif condition set: " ++ pv_name ++
            " triggers fail at " ++ toString target_value ++ ". Fail script: " ++ script_name)
          let ctx1 := { ctx with fail_condition_triggered := false }
          let cid := ctx1.nextCid
          let ctx2 := { ctx1 with
            nextCid := cid + 1,
            subscriptions := (device_name, cid) :: ctx1.subscriptions,
            active_failif_conditions :=
              (pv_name, [PyField.signal device_name, PyField.subId cid, PyField.num target_value])
                :: ctx1.active_failif_conditions.filter (fun e => e.1 ≠ pv_name) }
          ⟨ctx2, [banner, .null], none⟩
  | _ =>
    ⟨ctx, [.print "Error: failif requires 3 arguments: PV_NAME, TARGET_VALUE, SCRIPT_NAME",
      .null], none⟩

/-- The context state the `failif` change-callback `on_pv_change`
(`megatron_control.py` lines 184-205) reads and writes: the two shared
context fields and the closed-over `last_value_holder` cell. -/
structure CbState where
  fail_condition_triggered : Bool
  fail_script_path : String
  lastValue : ℚ
deriving DecidableEq, Repr

/-- `on_pv_change`: one invocation of the `failif` change-callback with
the update's new value (`kwargs.get("value", value)` is modelled as one
optional argument; `none` is the no-value case, which only emits a debug
print). While a trigger is pending the callback returns at once, without
touching the baseline. Otherwise it shifts the baseline, and if the old
and new differences from the target have product at most zero (a
crossing), sets the shared flag and records the recovery script path
`os.path.join(context.script_dir, script_name)`. -/
def on_pv_change (target_value : ℚ) (script_dir script_name : String)
    (st : CbState) (value : Option ℚ) : CbState :=
  if st.fail_condition_triggered then st
  else
    match value with
    | none => st
    | some new_val =>
      let old_val := st.lastValue
      let st1 := { st with lastValue := new_val }
      let old_diff := old_val - target_value
      let new_diff := new_val - target_value
      if old_diff * new_diff ≤ 0 then
        { st1 with fail_condition_triggered := true,
                   fail_script_path := pyJoin script_dir script_name }
      else st1

/-- Python tuple unpacking of a stored registry value into two names
(`pv_signal, cid = active_failif_conditions.pop(pv_name)`,
`megatron_control.py` line 224): succeeds only for a pair, raises
`ValueError` otherwise. -/
def unpack2 (t : List PyField) : Except PyExc (PyField × PyField) :=
  match t with
  | [a, b] => .ok (a, b)
  | _ :: _ :: _ :: _ => .error (.valueError "too many values to unpack")
  | _ => .error (.valueError "not enough values to unpack")

/-- `failifoff` (`megatron_control.py` lines 212-227). Wrong argument
count and an unknown name are reported no-ops. For an active name the
entry is popped from the registry and then unpacked into
`(pv_signal, cid)`; only if that succeeds is the subscription removed and
the completion message printed. -/
def failifoff (args : List String) (ctx : MCtx) : MOut :=
  match args with
  | [pv_name] =>
    match ctx.active_failif_conditions.lookup pv_name with
    | none =>
      ⟨ctx, [.print ("Error: No active failif condition found for PV " ++ pv_name), .null], none⟩
    | some entry =>
      let ctx1 := { ctx with active_failif_conditions :=
        ctx.active_failif_conditions.filter (fun e => e.1 ≠ pv_name) }
      match unpack2 entry with
      | .error e => ⟨ctx1, [], some e⟩
      | .ok (sig, cid) =>
        let ctx2 :=
          match sig, cid with
          | .signal dev, .subId c =>
            { ctx1 with subscriptions := ctx1.subscriptions.filter (fun s => s ≠ (dev, c)) }
          | _, _ => ctx1
        ⟨ctx2, [.print ("Failif condition disabled for PV " ++ pv_name), .null], none⟩
  | _ => ⟨ctx, [.print "Error: failifoff requires 1 argument: PV_NAME", .null], none⟩

/-- Modelled from the spec: the comparison predicate
`compare(value, target, operator, tolerance)` of `wait_for_condition` in
`support.py`, a module that is not part of the sources (named `compareOp`
here only because `compare` collides with an existing root name). Spec
section 4.7: operator is one of the six relational operators, and
"tolerance widens equality-style comparisons symmetrically around the
target" (the spec's worked example reads a tolerant `>=` as
`value ≥ target − tolerance`). -/
def compareOp (value target : ℚ) (operator : String) (tolerance : ℚ) : Bool :=
  match operator with
  | "==" => decide (|value - target| ≤ tolerance)
  | "!=" => decide (¬ (|value - target| ≤ tolerance))
  | "<" => decide (value < target + tolerance)
  | "<=" => decide (value ≤ target + tolerance)
  | ">" => decide (target - tolerance < value)
  | ">=" => decide (target - tolerance ≤ value)
  | _ => false

/-- Outcome of one blocking wait. -/
inductive WaitOutcome where
  | success
  | timeoutAfter (seconds : ℚ)
  | blocksForever
deriving DecidableEq, Repr

/-- Modelled from the spec: `wait_for_condition` from the missing
`support.py`, for a signal that receives no further updates (the situation
of the claim): re-sampling a constant signal, the wait succeeds
immediately when `compare` already holds, and otherwise fails with a
`TimeoutError` when the timeout elapses (blocking forever without one). -/
def wait_for_condition (signalValue target : ℚ) (operator : String) (tolerance : ℚ)
    (timeout : Option ℚ) : WaitOutcome :=
  if compareOp signalValue target operator tolerance then .success
  else
    match timeout with
    | some t => .timeoutAfter t
    | none => .blocksForever

/-- `waitai` (`megatron_control.py` lines 359-374): parse the target
value, optional tolerance (default 0) and optional timeout from the
arguments, look the signal up through `device_mapping` and
`context.devices`, then delegate to `wait_for_condition` with
`target = value / 1000000` — the parsed target is divided by one million
(line 373). An unmapped source raises `RuntimeError`; a mapped name whose
attribute is missing raises `AttributeError` (`getattr` with no
default). -/
def waitai (args : List String) (ctx : MCtx) : Except PyExc WaitOutcome :=
  match args with
  | source :: operator :: valueStr :: rest =>
    match pyFloat valueStr with
    | none => .error (.valueError "could not convert string to float")
    | some value =>
      let tolRes : Except PyExc ℚ :=
        match rest with
        | [] => .ok 0
        | t :: _ =>
          match pyFloat t with
          | some q => .ok q
          | none => .error (.valueError "could not convert string to float")
      match tolRes with
      | .error e => .error e
      | .ok tolerance =>
        let toRes : Except PyExc (Option ℚ) :=
          match rest with
          | _ :: u :: _ =>
            match pyFloat u with
            | some q => .ok (some q)
            | none => .error (.valueError "could not convert string to float")
          | _ => .ok none
        match toRes with
        | .error e => .error e
        | .ok timeout =>
          match ctx.device_mapping.lookup source with
          | some device_name =>
            match ctx.deviceSignals.lookup device_name with
            | some signalValue =>
              .ok (wait_for_condition signalValue (value / 1000000) operator tolerance timeout)
            | none => .error .attributeError
          | none => .error (.runtimeError ("Unrecognized device name: " ++ source))
  | _ => .error .indexError

/-! ## Fixtures for the concrete runs used by the claim theorems -/

/-- A fresh engine context: no trigger pending, empty script root. -/
def engCtx0 : EngCtx := ⟨"", false, "", 0⟩

/-- A schedule on which the fail-condition callback never fires. -/
def schedNone : Sched := fun _ => none

/-- A schedule on which the fail-condition callback fires during the
engine's first loop iteration, recording recovery script `recover`. -/
def schedFirst : Sched := fun k => if k = 0 then some "recover" else none

/-- Script store for C1: a two-iteration loop over one `print` line, and a
one-line recovery script. -/
def c1Scripts : Scripts := fun p =>
  if p = "main" then ["l2", "print a", "n"]
  else if p = "recover" then ["print r"]
  else []

/-- Script store for C2: a blank line followed by a `print` line, and a
one-line recovery script. -/
def c2Scripts : Scripts := fun p =>
  if p = "main" then ["", "print hi"]
  else if p = "recover" then ["print r"]
  else []

/-- Script store for C4: an `l2` loop-open with no matching `n`, followed
by a `print` line. -/
def c4Scripts : Scripts := fun p =>
  if p = "main" then ["l2", "print a"] else []

/-- Script store for C8: a loop whose body is a single line with the
unknown command `foo`. -/
def c8Scripts : Scripts := fun p =>
  if p = "main" then ["l1", "foo bar", "n"] else []

/-- Script store for C9: a `print`, then a line of commas, then another
`print`. -/
def c9Scripts : Scripts := fun p =>
  if p = "main" then ["print a", ",,,", "print b"] else []

/-- A session state with one armed device, used by C6 and C7. -/
def c6Base : MCtx :=
  ⟨[("Galil RBV", "galil_rbv")], [("galil_rbv", 5)], "scripts", false, "", [], [], 0⟩

/-- Session state with the `Galil RBV` signal reading 8, for C7. -/
def c7Ctx8 : MCtx :=
  ⟨[("Galil RBV", "galil_rbv")], [("galil_rbv", 8)], "", false, "", [], [], 0⟩

/-- Session state with the `Galil RBV` signal reading 9, for C7. -/
def c7Ctx9 : MCtx :=
  ⟨[("Galil RBV", "galil_rbv")], [("galil_rbv", 9)], "", false, "", [], [], 0⟩

/-- A session state with a trigger already pending, for C10's witness. -/
def c10Ctx : MCtx :=
  ⟨[("Galil RBV", "galil_rbv")], [("galil_rbv", 5)], "scripts", true, "pending", [], [], 0⟩

/-! ## Claim theorems -/

/-- Claim C9: a non-blank, non-comment line consisting only of commas
tokenizes to zero tokens, and executing a script containing it raises an
uncaught `ValueError` at the `command, *args` unpacking, aborting the
entire run: the trace ends at that line and the later `print b` line never
executes. -/
theorem c9_empty_tokenization_valueerror :
    tokenize_command ",,," = [] ∧
    pyStrip ",,," ≠ "" ∧
    strStarts (pyStrip ",,,") "#" = false ∧
    match_t (pyStrip ",,,") = none ∧
    match_l (pyStrip ",,,") = none ∧
    runScript 20 c9Scripts schedNone "main" engCtx0 =
      ⟨⟨"", false, "", 1⟩,
       [.enterScript "main",
        .lineStart false "print a",
        .print "Executing print command with text: a", .null,
        .checkFail false,
        .lineStart false ",,,"],
       some (.valueError "not enough values to unpack")⟩ := by
  decide

/-- Claim C1 (code bug in `execute_block` / `handle_loop`): the engine
observes the fail flag set after the first loop iteration's `print a`
step, clears it and runs the recovery script as a fresh invocation — but
then `execute_block` merely returns into `handle_loop`'s `for` loop, so
the second iteration of the interrupted loop runs after the recovery
script, and the top level of the original script resumes as well; the
claimed abandonment of "all remaining iterations of every enclosing loop"
does not happen. The full trace of the failing run. -/
theorem c1_diversion_inside_loop_resumes :
    runScript 20 c1Scripts schedFirst "main" engCtx0 =
      ⟨⟨"", false, "recover", 4⟩,
       [.enterScript "main",
        .lineStart false "l2",
        .print "Executing loop iteration 1 of 2",
        .lineStart true "print a",
        .print "Executing print command with text: a", .null,
        .checkFail true,
        .enterScript "recover",
        .lineStart false "print r",
        .print "Executing print command with text: r", .null,
        .checkFail false,
        .print "Executing loop iteration 2 of 2",
        .lineStart true "print a",
        .print "Executing print command with text: a", .null,
        .checkFail false,
        .checkFail false],
       none⟩ := by
  decide

/-- Claim C2 (code bug in `execute_script`): after the blank-line step
(during which the fail flag becomes set), the engine `continue`s without
reading the flag — the first `checkFail` event of the trace appears only
after the next line (`print hi`) has fully executed, so the flag is not
checked "after every step, before executing the next line". The full
trace of the failing run. -/
theorem c2_flag_check_skipped_after_blank_line :
    runScript 20 c2Scripts schedFirst "main" engCtx0 =
      ⟨⟨"", false, "recover", 3⟩,
       [.enterScript "main",
        .lineStart false "", .null,
        .lineStart false "print hi",
        .print "Executing print command with text: hi", .null,
        .checkFail true,
        .enterScript "recover",
        .lineStart false "print r",
        .print "Executing print command with text: r", .null,
        .checkFail false],
       none⟩ := by
  decide

/-- The index-based scanning loop of the source equals the structural
depth-counting scan with the source's loop-open predicate (any line whose
stripped, lowercased text starts with `l`), offset by the scan's starting
index. -/
theorem findEndAux_eq_scan (lines : List String) :
    ∀ (rem depth i : Nat), lines.length ≤ i + rem →
      findEndAux lines depth i rem =
        (match findEndScan isLoopOpenCode (lines.drop i) depth with
         | some k => ((i + k : Nat) : Int)
         | none => -1) := by
  intro rem
  induction rem with
  | zero =>
    intro depth i hle
    have hdrop : lines.drop i = [] := List.drop_eq_nil_iff.mpr (by omega)
    simp [findEndAux, hdrop, findEndScan,
      List.getElem?_eq_none_iff.mpr (by omega : lines.length ≤ i)]
  | succ rem ih =>
    intro depth i hle
    by_cases hi : i < lines.length
    · have hget : lines[i]? = some lines[i] := List.getElem?_eq_getElem hi
      have hdrop : lines.drop i = lines[i] :: lines.drop (i + 1) := List.drop_eq_getElem_cons hi
      rw [hdrop]
      simp only [findEndAux, hget, findEndScan, isLoopOpenCode]
      by_cases hl : strStarts (pyLower (pyStrip lines[i])) "l" = true
      · simp only [hl, if_true]
        rw [ih (depth + 1) (i + 1) (by omega)]
        cases hscan : findEndScan isLoopOpenCode (lines.drop (i + 1)) (depth + 1) with
        | none => simp [hscan]
        | some k => simp [hscan]; ring
      · simp only [hl]
        by_cases hn : pyLower (pyStrip lines[i]) = "n"
        · simp only [hn]
          by_cases hd : depth = 0
          · simp [hd, if_true]
          · simp only [hd, if_false]
            rw [ih (depth - 1) (i + 1) (by omega)]
            cases hscan : findEndScan isLoopOpenCode (lines.drop (i + 1)) (depth - 1) with
            | none => simp [hscan]
            | some k => simp [hscan]; ring
        · simp only [hn]
          rw [ih depth (i + 1) (by omega)]
          cases hscan : findEndScan isLoopOpenCode (lines.drop (i + 1)) depth with
          | none => simp [hscan, hl, hn]
          | some k => simp [hscan, hl, hn]; ring
    · have hget : lines[i]? = none := List.getElem?_eq_none_iff.mpr (by omega)
      have hdrop : lines.drop i = [] := List.drop_eq_nil_iff.mpr (by omega)
      simp [findEndAux, hget, hdrop, findEndScan]

/-- Claim C3 counterexample: on the script `l1`, `log x`, `n`, the claim's
algorithm (depth counted only over lines matching the loop-open pattern
`l<digits>`) finds the matching close at index 2, but the source's
resolver counts the command line `log x` as a loop-open (it starts with
`l` after stripping and lowercasing) and reports "not found". -/
theorem c3_counterexample :
    find_end_of_loop ["l1", "log x", "n"] 0 = -1 ∧
    findEndOfLoopClaim ["l1", "log x", "n"] 0 = 2 ∧
    isLoopOpenClaim "log x" = false ∧ isLoopOpenCode "log x" = true := by
  decide

/-- Claim C3 as amended: for every sequence of lines and every start
index, the loop resolver behaves exactly as the forward depth-counting
scan in which every line whose stripped, lowercased text starts with the
letter `l` (not only lines matching `l<digits>`) increments the depth, a
close line `n` (case-insensitive) decrements it when the depth is
positive, the first close line seen at depth 0 is returned, and "not
found" (-1) is returned when the scan exhausts the sequence. -/
theorem c3_loop_resolver_amended (lines : List String) (start_index : Nat) :
    find_end_of_loop lines start_index = findEndOfLoopAmended lines start_index := by
  unfold find_end_of_loop findEndOfLoopAmended
  rw [findEndAux_eq_scan lines (lines.length - (start_index + 1)) 0 (start_index + 1) (by omega)]

/-- Claim C4 counterexample: running the script `l2`, `print a` (no
matching `n`), the engine reports the loop-syntax error as a no-op step
and then executes the later `print a` line — the remainder of the script
is not abandoned, contradicting "no later line of it executes". -/
theorem c4_counterexample :
    find_end_of_loop ["l2", "print a"] 0 = -1 ∧
    runScript 20 c4Scripts schedNone "main" engCtx0 =
      ⟨⟨"", false, "", 2⟩,
       [.enterScript "main",
        .lineStart false "l2",
        .report .loopError, .null,
        .checkFail false,
        .lineStart false "print a",
        .print "Executing print command with text: a", .null,
        .checkFail false],
       none⟩ := by
  decide

/-- Claim C4 as amended: an unmatched loop-open raises `LoopSyntaxError`.
At the top level of a script the engine's handler catches it, reports it,
performs a no-op step, checks the fail flag, and continues with the line
after the loop-open (later lines of the script, including the loop body
lines, do execute). Inside a loop block the exception propagates out of
`execute_block` uncaught, abandoning the rest of that block and the
remaining loop iterations, up to the top-level handler. -/
theorem c4_loop_syntax_error_amended
    (fuel : Nat) (scripts : Scripts) (sched : Sched) (lines block : List String)
    (ctx cb : EngCtx) (i j : Nat)
    (hi : i < lines.length)
    (hcomment : strStarts (pyStrip (lines.get ⟨i, hi⟩)) "#" = false)
    (hblank : pyStrip (lines.get ⟨i, hi⟩) ≠ "")
    (ht : match_t (pyStrip (lines.get ⟨i, hi⟩)) = none)
    (cnt : Nat)
    (hl : match_l (pyStrip (lines.get ⟨i, hi⟩)) = some cnt)
    (hend : find_end_of_loop lines i = -1)
    (hj : j < block.length)
    (hbblank : pyStrip (block.get ⟨j, hj⟩) ≠ "")
    (hbt : match_t (pyStrip (block.get ⟨j, hj⟩)) = none)
    (cnt2 : Nat)
    (hbl : match_l (pyStrip (block.get ⟨j, hj⟩)) = some cnt2)
    (hbend : find_end_of_loop block j = -1) :
    scriptLoop (fuel + 1) scripts sched lines ctx i =
      EngOut.prepend [.lineStart false (pyStrip (lines.get ⟨i, hi⟩)), .report .loopError, .null]
        (afterStep fuel scripts sched lines (applySched sched ctx) (i + 1)) ∧
    runBlock (fuel + 1) scripts sched block cb j =
      ⟨cb, [.lineStart true (pyStrip (block.get ⟨j, hj⟩))], some .loopError⟩ := by
  constructor
  · simp only [scriptLoop, dif_pos hi, hcomment, hblank, ht, hl, hend]
    simp [EngOut.prepend]
  · simp only [runBlock, dif_pos hj, hbblank, hbt, hbl, hbend]
    simp [EngOut.prepend]

/-- Witness for C4's amended theorem at a concrete input. -/
theorem c4_loop_syntax_error_amended_witness :
    scriptLoop 6 c4Scripts schedNone ["l2", "print a"] engCtx0 0 =
      EngOut.prepend [.lineStart false (pyStrip "l2"), .report .loopError, .null]
        (afterStep 5 c4Scripts schedNone ["l2", "print a"] (applySched schedNone engCtx0) 1) ∧
    runBlock 6 c4Scripts schedNone ["l1"] engCtx0 0 =
      ⟨engCtx0, [.lineStart true (pyStrip "l1")], some .loopError⟩ :=
  c4_loop_syntax_error_amended 5 c4Scripts schedNone ["l2", "print a"] ["l1"] engCtx0 engCtx0 0 0
    (by decide) (by decide) (by decide) (by decide) 2 (by decide) (by decide)
    (by decide) (by decide) (by decide) 1 (by decide) (by decide)

/-- Claim C8 counterexample: the unknown command `foo` inside a loop block
is silently skipped — the run's full trace contains no report of a
`CommandNotFound` condition (and no exception is raised), contradicting
"caught, reported through the session's output channel ... for lines at
the top level of a script and for lines inside loop blocks alike". -/
theorem c8_counterexample :
    tokenize_command "foo bar" = ["foo", "bar"] ∧
    megatron_commands.contains "foo" = false ∧
    motor_commands.contains "foo" = false ∧
    runScript 20 c8Scripts schedNone "main" engCtx0 =
      ⟨⟨"", false, "", 2⟩,
       [.enterScript "main",
        .lineStart false "l1",
        .print "Executing loop iteration 1 of 1",
        .lineStart true "foo bar",
        .checkFail false,
        .checkFail false],
       none⟩ ∧
    Ev.report (.cmdNotFound "foo") ∉ (runScript 20 c8Scripts schedNone "main" engCtx0).evs := by
  refine ⟨by decide, by decide, by decide, by decide, by decide⟩

/-- Claim C8 as amended: at the top level of a script, a line whose
command token is unknown raises `CommandNotFoundError`, which is caught,
reported, treated as a single no-op step, and the script continues with
the next line; inside a loop block, an unknown command raises nothing and
is silently skipped — no report is produced — and the block continues
with the next line. -/
theorem c8_unknown_command_amended
    (fuel : Nat) (scripts : Scripts) (sched : Sched) (lines block : List String)
    (ctx cb : EngCtx) (i j : Nat) (c c2 : String) (args args2 : List String)
    (hi : i < lines.length)
    (hcomment : strStarts (pyStrip (lines.get ⟨i, hi⟩)) "#" = false)
    (hblank : pyStrip (lines.get ⟨i, hi⟩) ≠ "")
    (ht : match_t (pyStrip (lines.get ⟨i, hi⟩)) = none)
    (hl : match_l (pyStrip (lines.get ⟨i, hi⟩)) = none)
    (htok : tokenize_command (pyStrip (lines.get ⟨i, hi⟩)) = c :: args)
    (hmega : megatron_commands.contains c = false)
    (hmotor : motor_commands.contains c = false)
    (hj : j < block.length)
    (hbblank : pyStrip (block.get ⟨j, hj⟩) ≠ "")
    (hbt : match_t (pyStrip (block.get ⟨j, hj⟩)) = none)
    (hbl : match_l (pyStrip (block.get ⟨j, hj⟩)) = none)
    (hbtok : tokenize_command (pyStrip (block.get ⟨j, hj⟩)) = c2 :: args2)
    (hbmega : megatron_commands.contains c2 = false)
    (hbmotor : motor_commands.contains c2 = false) :
    scriptLoop (fuel + 1) scripts sched lines ctx i =
      EngOut.prepend
        [.lineStart false (pyStrip (lines.get ⟨i, hi⟩)), .report (.cmdNotFound c), .null]
        (afterStep fuel scripts sched lines (applySched sched ctx) (i + 1)) ∧
    runBlock (fuel + 1) scripts sched block cb j =
      EngOut.prepend [.lineStart true (pyStrip (block.get ⟨j, hj⟩))]
        (blockAfterStep fuel scripts sched block (applySched sched cb) (j + 1)) := by
  constructor
  · simp only [scriptLoop, dif_pos hi, hcomment, hblank, ht, hl, htok, hmega, hmotor]
    simp [EngOut.prepend]
  · simp only [runBlock, dif_pos hj, hbblank, hbt, hbl, hbtok, hbmega, hbmotor]
    simp [EngOut.prepend]

/-- Witness for C8's amended theorem at a concrete input. -/
theorem c8_unknown_command_amended_witness :
    scriptLoop 6 c8Scripts schedNone ["foo bar"] engCtx0 0 =
      EngOut.prepend
        [.lineStart false (pyStrip "foo bar"), .report (.cmdNotFound "foo"), .null]
        (afterStep 5 c8Scripts schedNone ["foo bar"] (applySched schedNone engCtx0) 1) ∧
    runBlock 6 c8Scripts schedNone ["foo bar"] engCtx0 0 =
      EngOut.prepend [.lineStart true (pyStrip "foo bar")]
        (blockAfterStep 5 c8Scripts schedNone ["foo bar"] (applySched schedNone engCtx0) 1) :=
  c8_unknown_command_amended 5 c8Scripts schedNone ["foo bar"] ["foo bar"] engCtx0 engCtx0 0 0
    "foo" "foo" ["bar"] ["bar"]
    (by decide) (by decide) (by decide) (by decide) (by decide) (by decide) (by decide)
    (by decide) (by decide) (by decide) (by decide) (by decide) (by decide) (by decide)
    (by decide)

/-- Claim C5: for a state with no pending trigger, one invocation of the
armed `failif` change-callback sets the shared flag exactly when the
product of the old and new differences from the target is at most zero;
when it fires it records the joined recovery-script path, and it always
shifts the baseline to the new value. For a state with the trigger
pending, the callback is the identity (every further update is ignored,
so the flag is set at most once per consumption). -/
theorem c5_failif_callback_characterization
    (t : ℚ) (dir name : String) (st : CbState) (v : ℚ) (u : Option ℚ)
    (hp : st.fail_condition_triggered = false) :
    ((on_pv_change t dir name st (some v)).fail_condition_triggered
        = decide ((st.lastValue - t) * (v - t) ≤ 0)) ∧
    ((on_pv_change t dir name st (some v)).fail_script_path
        = if (st.lastValue - t) * (v - t) ≤ 0 then pyJoin dir name else st.fail_script_path) ∧
    ((on_pv_change t dir name st (some v)).lastValue = v) ∧
    (on_pv_change t dir name { st with fail_condition_triggered := true } u
        = { st with fail_condition_triggered := true }) := by
  refine ⟨?_, ?_, ?_, ?_⟩
  · by_cases hc : (st.lastValue - t) * (v - t) ≤ 0 <;> simp [on_pv_change, hp, hc]
  · by_cases hc : (st.lastValue - t) * (v - t) ≤ 0 <;> simp [on_pv_change, hp, hc]
  · by_cases hc : (st.lastValue - t) * (v - t) ≤ 0 <;> simp [on_pv_change, hp, hc]
  · simp [on_pv_change]

/-- Witness for C5's theorem: the spec's own worked example, a signal
going from 5 to -1 with target 0. -/
theorem c5_failif_callback_witness :
    ((on_pv_change 0 "scripts" "r.txt" ⟨false, "", 5⟩ (some (-1))).fail_condition_triggered
        = decide ((5 - (0 : ℚ)) * (-1 - (0 : ℚ)) ≤ 0)) ∧
    ((on_pv_change 0 "scripts" "r.txt" ⟨false, "", 5⟩ (some (-1))).fail_script_path
        = if ((5 : ℚ) - 0) * (-1 - 0) ≤ 0 then pyJoin "scripts" "r.txt" else "") ∧
    ((on_pv_change 0 "scripts" "r.txt" ⟨false, "", 5⟩ (some (-1))).lastValue = -1) ∧
    (on_pv_change 0 "scripts" "r.txt" ⟨true, "", 5⟩ (some 99) = ⟨true, "", 5⟩) :=
  c5_failif_callback_characterization 0 "scripts" "r.txt" ⟨false, "", 5⟩ (-1) (some 99) rfl


/-- Claim C6 (code bug in `failifoff`): `failif` stores the 3-tuple
`(pv_signal, cid, target_value)` in the registry, but `failifoff` unpacks
the popped value into only two names, so disabling an active condition
always raises `ValueError` instead of unsubscribing cleanly; the second
conjunct shows the entry really was in the registry, and the third shows
the no-op path for an unknown name works (reported, state unchanged, no
exception), as the claim says. -/
theorem c6_failifoff_raises_on_active_condition :
    (failifoff ["Galil RBV"] (failif ["Galil RBV", "0", "recover.txt"] c6Base).ctx).exc
        = some (.valueError "too many values to unpack") ∧
    (((failif ["Galil RBV", "0", "recover.txt"] c6Base).ctx.active_failif_conditions.lookup
        "Galil RBV").isSome = true) ∧
    failifoff ["Other"] c6Base =
      ⟨c6Base, [.print "Error: No active failif condition found for PV Other", .null], none⟩ := by
  decide


/-- Claim C7 counterexample: with operator `>=`, target 10, tolerance 1, a
signal stuck at 8 and a 1-second timeout, `compare(8, 10, >=, 1)` is false
(so the claim predicts a timeout), but `waitai` divides the parsed target
by 1000000 and therefore succeeds immediately instead of timing out. -/
theorem c7_counterexample :
    compareOp 8 10 ">=" 1 = false ∧
    waitai ["Galil RBV", ">=", "10", "1", "1"] c7Ctx8 = .ok .success ∧
    waitai ["Galil RBV", ">=", "10", "1", "1"] c7Ctx8 ≠ .ok (.timeoutAfter 1) := by
  have h10 : pyFloat "10" = some 10 := by
    have h : pyFloatParts "10" = some (false, 10, 0, 0) := by decide
    simp [pyFloat, h]
  have h1 : pyFloat "1" = some 1 := by
    have h : pyFloatParts "1" = some (false, 1, 0, 0) := by decide
    simp [pyFloat, h]
  have hcmp : compareOp 8 (10 / 1000000) ">=" 1 = true := by
    simp only [compareOp]
    norm_num
  have hw : waitai ["Galil RBV", ">=", "10", "1", "1"] c7Ctx8 = .ok .success := by
    simp [waitai, h10, h1, c7Ctx8, wait_for_condition, hcmp]
  refine ⟨?_, hw, by rw [hw]; simp⟩
  simp only [compareOp]
  norm_num

/-- Claim C7 as amended: `waitai` blocks until
`compare(value, target / 1000000, operator, tolerance)` holds for the
parsed target value; with operator `>=`, target 10 and tolerance 1 it
succeeds immediately when the signal value is 9, and with value 8 and a
1-second timeout it also succeeds immediately (8 is at least
10/1000000 − 1), so no timeout occurs. -/
theorem c7_waitai_amended :
    waitai ["Galil RBV", ">=", "10", "1"] c7Ctx9 = .ok .success ∧
    waitai ["Galil RBV", ">=", "10", "1", "1"] c7Ctx8 = .ok .success ∧
    compareOp 9 (10 / 1000000) ">=" 1 = true ∧
    compareOp 8 (10 / 1000000) ">=" 1 = true := by
  have h10 : pyFloat "10" = some 10 := by
    have h : pyFloatParts "10" = some (false, 10, 0, 0) := by decide
    simp [pyFloat, h]
  have h1 : pyFloat "1" = some 1 := by
    have h : pyFloatParts "1" = some (false, 1, 0, 0) := by decide
    simp [pyFloat, h]
  have hc9 : compareOp 9 (10 / 1000000) ">=" 1 = true := by simp only [compareOp]; norm_num
  have hc8 : compareOp 8 (10 / 1000000) ">=" 1 = true := by simp only [compareOp]; norm_num
  refine ⟨?_, ?_, hc9, hc8⟩
  · simp [waitai, h10, h1, c7Ctx9, wait_for_condition, hc9]
  · simp [waitai, h10, h1, c7Ctx8, wait_for_condition, hc8]

/-- Claim C10: every `failif` invocation that passes validation resets the
shared fail-triggered flag to `False` (before subscribing its callback),
for any prior state of the flag — a pending, unconsumed trigger is
silently discarded — and records the new condition in the registry. -/
theorem c10_failif_resets_flag
    (ctx : MCtx) (pv target script dev : String)
    (parts : Bool × Nat × Nat × Nat) (v : ℚ)
    (hparse : pyFloatParts target = some parts)
    (hmap : ctx.device_mapping.lookup pv = some dev)
    (hsig : ctx.deviceSignals.lookup dev = some v) :
    (failif [pv, target, script] ctx).ctx.fail_condition_triggered = false ∧
    ((failif [pv, target, script] ctx).ctx.active_failif_conditions.lookup pv).isSome = true := by
  have hq : pyFloat target = some ((if parts.1 then (-1 : ℚ) else 1) *
      ((parts.2.1 : ℚ) + (parts.2.2.1 : ℚ) / (10 : ℚ) ^ parts.2.2.2)) := by
    simp [pyFloat, hparse]
  constructor
  · simp [failif, hq, hmap, hsig]
  · simp [failif, hq, hmap, hsig]


/-- Witness for C10's theorem: arming `failif` while a trigger is pending
discards the pending trigger. -/
theorem c10_failif_resets_flag_witness :
    (failif ["Galil RBV", "0", "r.txt"] c10Ctx).ctx.fail_condition_triggered = false ∧
    ((failif ["Galil RBV", "0", "r.txt"] c10Ctx).ctx.active_failif_conditions.lookup
        "Galil RBV").isSome = true :=
  c10_failif_resets_flag c10Ctx "Galil RBV" "0" "r.txt" "galil_rbv" (false, 0, 0, 0) 5
    (by decide) (by decide) (by decide)
